import Mathlib

/-!
Verification development for the DevFlow analytics / gamification core.

Shallow embedding of:
* `ModelPerformanceTracker` (metrics ring buffers, accuracy matching,
  performance report, retrain signal);
* `AchievementSystem` (user stats snapshot, achievement catalog,
  requirement evaluation, awarding against the `user_achievements`
  table with its `UNIQUE(user_id, achievement_id)` constraint);
* `AnalyticsService.analyzeProgressTrend` (learning-insight trend
  classification).

Numbers are embedded as `ℚ` (JS numbers on the reachable inputs are
exact small decimals), database rows as lists of structures, SQL
`NULL`-able aggregate columns as `Option ℚ`, and JS `undefined`
results as `Option` values.  Wall-clock timestamps stored alongside
metric samples are never read by any of the embedded logic and are
omitted; dates in the streak computation are embedded as day numbers
(`ℤ`).
-/

/-- A found / canonical issue as used by accuracy matching: only the
`line` and `type` fields are read by the matching predicate. -/
structure Issue where
  line : ℤ
  type : String
deriving DecidableEq

/-- The matching condition inside `ModelPerformanceTracker.calculateAccuracy`:
`Math.abs(userIssue.line - correctIssue.line) <= 2 && userIssue.type === correctIssue.type`. -/
def issueMatches (userIssue correctIssue : Issue) : Bool :=
  decide (|userIssue.line - correctIssue.line| ≤ 2) &&
    decide (userIssue.type = correctIssue.type)

/-- The matching condition inside the submit-review handler
(`server/index.js`, computation of `correctlyFound`):
`Math.abs(found.line - correct.line) <= 2 && found.type === correct.type`. -/
def submissionIssueMatches (found correct : Issue) : Bool :=
  decide (|found.line - correct.line| ≤ 2) &&
    decide (found.type = correct.type)

/-- `ModelPerformanceTracker.calculateAccuracy`: if there are no canonical
issues the accuracy is `1.0`; otherwise every user-found issue that matches
some canonical issue (the inner loop `break`s at the first match) counts
once, and the result is `matches / correct.length`. -/
def calculateAccuracy (userFound correct : List Issue) : ℚ :=
  if correct = [] then 1
  else
    ((userFound.filter (fun u => correct.any (fun c => issueMatches u c))).length : ℚ) /
      (correct.length : ℚ)

/-- `correctlyFound` in the submit-review handler: the number of user-found
issues matching some canonical issue. -/
def correctlyFound (foundIssues correctIssues : List Issue) : ℕ :=
  (foundIssues.filter (fun f => correctIssues.any (fun c => submissionIssueMatches f c))).length

/-- The in-memory metric buffers of `ModelPerformanceTracker`: sample
values for response time, accuracy, and user satisfaction, oldest first
(`push` appends at the end).  The `timestamp` stored with each sample, and
the `cacheHitRate` / `totalRequests` counters, are never read by the report
or retrain logic and are omitted. -/
structure PerfMetrics where
  responseTime : List ℚ
  accuracy : List ℚ
  userSatisfaction : List ℚ
deriving DecidableEq

/-- Last `n` elements of a list (JS `slice(-n)` for `n ≤ length`). -/
def lastN (n : ℕ) (xs : List ℚ) : List ℚ :=
  xs.drop (xs.length - n)

/-- Append a sample and keep only the last 100 measurements
(`push` followed by `if (length > 100) slice(-100)`). -/
def pushCapped (xs : List ℚ) (v : ℚ) : List ℚ :=
  if 100 < (xs ++ [v]).length then lastN 100 (xs ++ [v]) else xs ++ [v]

/-- `trackResponseTime(startTime, endTime)`: appends the elapsed time to the
response-time buffer and returns it (`some` models a JS `return`). -/
def trackResponseTime (startTime endTime : ℚ) (m : PerfMetrics) :
    Option ℚ × PerfMetrics :=
  (some (endTime - startTime),
   { m with responseTime := pushCapped m.responseTime (endTime - startTime) })

/-- `trackAccuracy(userFoundIssues, correctIssues)`: appends the computed
accuracy to the accuracy buffer and returns it. -/
def trackAccuracy (userFoundIssues correctIssues : List Issue) (m : PerfMetrics) :
    Option ℚ × PerfMetrics :=
  (some (calculateAccuracy userFoundIssues correctIssues),
   { m with accuracy := pushCapped m.accuracy (calculateAccuracy userFoundIssues correctIssues) })

/-- `trackUserSatisfaction(rating, category)`: appends the rating to the
satisfaction buffer.  The JS method body has no `return` statement, so the
call evaluates to `undefined`, embedded as `none`.  The `category` stored
with the sample is never read by the report logic. -/
def trackUserSatisfaction (rating : ℚ) (_cat : String) (m : PerfMetrics) :
    Option ℚ × PerfMetrics :=
  (none, { m with userSatisfaction := pushCapped m.userSatisfaction rating })

/-- Average of a list of samples, `0` when empty (the
`length > 0 ? reduce(..)/length : 0` pattern of `getPerformanceReport`). -/
def avgOf (xs : List ℚ) : ℚ :=
  if xs = [] then 0 else xs.sum / (xs.length : ℚ)

/-- JS `Math.round`: round half toward positive infinity. -/
def jsRound (q : ℚ) : ℤ :=
  ⌊q + 1/2⌋

/-- The `older` window of `isImproving`: JS `values.slice(-20, -10)`,
i.e. the up-to-10 samples preceding the last 10. -/
def olderWindow (xs : List ℚ) : List ℚ :=
  (xs.take (xs.length - 10)).drop (xs.length - 20)

/-- The final comparison of `isImproving`:
`higherIsBetter ? recentAvg > olderAvg : recentAvg < olderAvg`. -/
def favorable (higherIsBetter : Bool) (recentAvg olderAvg : ℚ) : Bool :=
  if higherIsBetter then decide (olderAvg < recentAvg) else decide (recentAvg < olderAvg)

/-- `ModelPerformanceTracker.isImproving(values, higherIsBetter)`:
`null` for fewer than 10 samples or an empty `slice(-20, -10)` window,
otherwise the comparison of the two window averages. -/
def isImproving (values : List ℚ) (higherIsBetter : Bool) : Option Bool :=
  if values.length < 10 then none
  else
    let older := olderWindow values
    if older = [] then none
    else some (favorable higherIsBetter (avgOf (lastN 10 values)) (avgOf older))

/-- The fields of `getPerformanceReport()` read by `shouldRetrain()`. -/
structure Report where
  averageResponseTime : ℤ
  averageAccuracy : ℤ
  averageUserSatisfaction : ℚ
  responseTimeImproving : Option Bool
  accuracyImproving : Option Bool
  satisfactionImproving : Option Bool
deriving DecidableEq

/-- `ModelPerformanceTracker.getPerformanceReport()` (the `cacheHitRate` and
`totalRequests` fields, unused by `shouldRetrain`, are omitted). -/
def getPerformanceReport (m : PerfMetrics) : Report :=
  { averageResponseTime := jsRound (avgOf m.responseTime)
    averageAccuracy := jsRound (avgOf m.accuracy * 100)
    averageUserSatisfaction := (jsRound (avgOf m.userSatisfaction * 10) : ℚ) / 10
    responseTimeImproving := isImproving m.responseTime false
    accuracyImproving := isImproving m.accuracy true
    satisfactionImproving := isImproving m.userSatisfaction true }

/-- `ModelPerformanceTracker.shouldRetrain()`: thresholds on the report
averages, or an explicit `=== false` trend on any metric. -/
def shouldRetrain (m : PerfMetrics) : Bool :=
  let report := getPerformanceReport m
  decide (5000 < report.averageResponseTime) ||
    decide (report.averageAccuracy < 70) ||
    decide (report.averageUserSatisfaction < 7/2) ||
    (report.responseTimeImproving == some false) ||
    (report.accuracyImproving == some false) ||
    (report.satisfactionImproving == some false)

theorem olderWindow_length (xs : List ℚ) :
    (olderWindow xs).length = (xs.length - 10) - (xs.length - 20) := by
  simp only [olderWindow, List.length_drop, List.length_take]
  omega

theorem isImproving_of_gt_ten (values : List ℚ) (b : Bool)
    (h : 10 < values.length) :
    isImproving values b =
      some (favorable b (avgOf (lastN 10 values)) (avgOf (olderWindow values))) := by
  have h1 : ¬ values.length < 10 := by omega
  have h2 : olderWindow values ≠ [] := by
    intro he
    have hl := olderWindow_length values
    rw [he] at hl
    simp at hl
    omega
  simp [isImproving, h1, h2]

theorem isImproving_none_iff (values : List ℚ) (b : Bool) :
    isImproving values b = none ↔ values.length ≤ 10 := by
  constructor
  · intro h
    by_contra hgt
    push_neg at hgt
    rw [isImproving_of_gt_ten values b hgt] at h
    exact Option.noConfusion h
  · intro hle
    by_cases h : values.length < 10
    · simp [isImproving, h]
    · have h2 : olderWindow values = [] := by
        apply List.length_eq_zero.mp
        have hl := olderWindow_length values
        omega
      simp [isImproving, h, h2]

/-- The `type` field of an achievement definition. -/
inductive AchType
  | milestone
  | skill
  | speed
  | category
  | streak
  | special
deriving DecidableEq

/-- The typed `requirement` parameter set of an achievement definition.
Each catalog entry sets only the fields its `type` reads; JS property
access on a missing field yields `undefined`, embedded as `none`. -/
structure Requirement where
  exercises_completed : Option ℕ := none
  consecutive_high_accuracy : Option ℕ := none
  accuracy_threshold : Option ℚ := none
  perfect_score : Option ℕ := none
  time_under : Option ℚ := none
  fast_completions : Option ℕ := none
  time_threshold : Option ℚ := none
  category : Option String := none
  exercises : Option ℕ := none
  accuracy : Option ℚ := none
  daily_streak : Option ℕ := none
  night_exercises : Option ℕ := none
  morning_exercises : Option ℕ := none
  languages : Option ℕ := none
deriving DecidableEq

/-- An achievement definition from `AchievementSystem.defineAchievements`.
The display-only `name`, `description` and `icon` fields, read by no
predicate, are omitted. -/
structure Achievement where
  id : String
  type : AchType
  requirement : Requirement
  points : ℕ
  rarity : String
deriving DecidableEq

def firstSteps : Achievement :=
  { id := "first_steps", type := .milestone,
    requirement := { exercises_completed := some 1 }, points := 10, rarity := "common" }

/-- The static achievement catalog (`defineAchievements`), in object
insertion order, which is the iteration order of `Object.entries`. -/
def defineAchievements : List Achievement :=
  [firstSteps,
   { id := "getting_started", type := .milestone,
     requirement := { exercises_completed := some 5 }, points := 25, rarity := "common" },
   { id := "dedicated_learner", type := .milestone,
     requirement := { exercises_completed := some 25 }, points := 100, rarity := "uncommon" },
   { id := "code_review_master", type := .milestone,
     requirement := { exercises_completed := some 100 }, points := 500, rarity := "rare" },
   { id := "sharp_eye", type := .skill,
     requirement := { consecutive_high_accuracy := some 5, accuracy_threshold := some (9/10) },
     points := 75, rarity := "uncommon" },
   { id := "perfectionist", type := .skill,
     requirement := { perfect_score := some 1 }, points := 50, rarity := "uncommon" },
   { id := "speed_demon", type := .speed,
     requirement := { time_under := some 60 }, points := 30, rarity := "uncommon" },
   { id := "lightning_fast", type := .speed,
     requirement := { fast_completions := some 10, time_threshold := some 120 },
     points := 100, rarity := "rare" },
   { id := "security_specialist", type := .category,
     requirement := { category := some "security", exercises := some 15, accuracy := some (4/5) },
     points := 150, rarity := "rare" },
   { id := "performance_guru", type := .category,
     requirement := { category := some "performance", exercises := some 15, accuracy := some (4/5) },
     points := 150, rarity := "rare" },
   { id := "logic_master", type := .category,
     requirement := { category := some "logic", exercises := some 15, accuracy := some (4/5) },
     points := 150, rarity := "rare" },
   { id := "consistent_learner", type := .streak,
     requirement := { daily_streak := some 7 }, points := 100, rarity := "uncommon" },
   { id := "unstoppable", type := .streak,
     requirement := { daily_streak := some 30 }, points := 500, rarity := "legendary" },
   { id := "night_owl", type := .special,
     requirement := { night_exercises := some 10 }, points := 50, rarity := "uncommon" },
   { id := "early_bird", type := .special,
     requirement := { morning_exercises := some 10 }, points := 50, rarity := "uncommon" },
   { id := "polyglot", type := .special,
     requirement := { languages := some 5 }, points := 200, rarity := "rare" }]

/-- Per-category statistics in the user stats snapshot. -/
structure CatStat where
  count : ℕ
  avgAccuracy : ℚ
deriving DecidableEq

/-- The snapshot returned by `AchievementSystem.processUserStats`. -/
structure UserStats where
  totalExercises : ℕ
  avgAccuracy : ℚ
  avgTime : ℚ
  bestAccuracy : ℚ
  fastestTime : ℚ
  categories : List (String × CatStat)
  languageCount : ℕ
  currentStreak : ℕ
  consecutiveHighAccuracy : ℕ
  nightExercises : ℕ
  morningExercises : ℕ
  hasPerfectScore : Bool
deriving DecidableEq

/-- The read-only stats environment a `checkAchievements` call evaluates
requirements against: the snapshot from `getUserStats`, plus the
`countFastCompletions(userId, threshold)` query as a function of the
threshold.  Both are derived purely from the `exercise_analytics` table,
which awarding never writes, so a "fixed underlying stats state" fixes this
environment. -/
structure StatsEnv where
  stats : UserStats
  fastCompletions : ℚ → ℕ

/-- The `exerciseData` argument of `checkAchievements`; only
`timeToComplete` is read by requirement evaluation. -/
structure ExerciseData where
  timeToComplete : ℚ

/-- `AchievementSystem.meetsRequirement`.  JS truthiness tests on
requirement fields (`if (req.consecutive_high_accuracy)` …) are embedded
as `Option` matches; the catalog never stores a field value `0`, for which
the two differ. -/
def meetsRequirement (env : StatsEnv) (ex : ExerciseData) (a : Achievement) : Bool :=
  match a.type with
  | .milestone =>
    match a.requirement.exercises_completed with
    | some n => decide (n ≤ env.stats.totalExercises)
    | none => false
  | .skill =>
    match a.requirement.consecutive_high_accuracy with
    | some n => decide (n ≤ env.stats.consecutiveHighAccuracy)
    | none =>
      match a.requirement.perfect_score with
      | some _ => env.stats.hasPerfectScore
      | none => false
  | .speed =>
    match a.requirement.time_under with
    | some t => decide (ex.timeToComplete ≤ t)
    | none =>
      match a.requirement.fast_completions with
      | some n =>
        match a.requirement.time_threshold with
        | some t => decide (n ≤ env.fastCompletions t)
        | none => false
      | none => false
  | .category =>
    match a.requirement.category, a.requirement.exercises, a.requirement.accuracy with
    | some c, some n, some q =>
      match env.stats.categories.lookup c with
      | some cs => decide (n ≤ cs.count) && decide (q ≤ cs.avgAccuracy)
      | none => false
    | _, _, _ => false
  | .streak =>
    match a.requirement.daily_streak with
    | some n => decide (n ≤ env.stats.currentStreak)
    | none => false
  | .special =>
    match a.requirement.night_exercises with
    | some n => decide (n ≤ env.stats.nightExercises)
    | none =>
      match a.requirement.morning_exercises with
      | some n => decide (n ≤ env.stats.morningExercises)
      | none =>
        match a.requirement.languages with
        | some n => decide (n ≤ env.stats.languageCount)
        | none => false

/-- The persisted achievement storage: `user_achievements` rows as
`(user_id, achievement_id)` pairs (every row written by `awardAchievement`
has `completed = TRUE`, so the flag is left implicit), and `user_badges`
rows as `(user_id, badge_id)` pairs (display columns omitted; the badges
table has no uniqueness constraint). -/
structure DBState where
  userAchievements : List (String × String)
  badges : List (String × String)
deriving DecidableEq

/-- `AchievementSystem.userHasAchievement`: a row exists for
`(userId, achievementId)` with `completed = TRUE`. -/
def userHasAchievement (s : DBState) (userId achievementId : String) : Bool :=
  decide ((userId, achievementId) ∈ s.userAchievements)

/-- The durable effect of `AchievementSystem.awardAchievement`: the
`INSERT OR REPLACE INTO user_achievements` under the
`UNIQUE(user_id, achievement_id)` constraint commits — a conflicting row
is replaced, never reported as a conflict.  The completion callback is a
plain `function (err)`, which sqlite3 invokes with `this` bound to the
Statement (that is why `resolve(this.lastID)` is written); the Statement
has no `db` property, so the badge insert `this.db.run(...)` evaluates
`undefined.run` and throws a TypeError before the badge SQL and before
`resolve`: no `user_badges` row is ever written, the TypeError surfaces
as an uncaught exception, and the returned promise never settles. -/
def awardAchievement (s : DBState) (userId : String) (a : Achievement) : DBState :=
  { userAchievements :=
      (userId, a.id) :: s.userAchievements.filter (fun p => decide (p ≠ (userId, a.id)))
    badges := s.badges }

/-- Outcome of a `checkAchievements` call.  `done l s`: the loop visited
the whole catalog without awarding, the promise resolved with the pushed
list `l` (necessarily empty — every push sits after an `await` of an
award promise, and those never settle), and the store is `s`.
`stalled id s`: the loop reached an unearned achievement `id` whose
requirement is met and ran `awardAchievement`; its row insert committed
(giving store `s`), but the award callback threw the `this.db` TypeError
— an uncaught exception surfaced, the award promise never settled, the
`await` never resumed, and the call never returned a value. -/
inductive CheckOutcome where
  | done (newAchievements : List Achievement) (state : DBState)
  | stalled (achievementId : String) (state : DBState)
deriving DecidableEq

/-- The loop of `AchievementSystem.checkAchievements`: for each catalog
entry, read `userHasAchievement`; when absent and the requirement is met,
`await awardAchievement` — which never settles (see `CheckOutcome`), so
the loop stops there and the push after the `await` is unreachable. -/
def checkGo (userId : String) (env : StatsEnv) (ex : ExerciseData) :
    List Achievement → DBState → CheckOutcome
  | [], s => .done [] s
  | a :: rest, s =>
    if !userHasAchievement s userId a.id && meetsRequirement env ex a then
      .stalled a.id (awardAchievement s userId a)
    else
      checkGo userId env ex rest s

/-- `AchievementSystem.checkAchievements` over the static catalog. -/
def checkAchievements (userId : String) (env : StatsEnv) (ex : ExerciseData)
    (s : DBState) : CheckOutcome :=
  checkGo userId env ex defineAchievements s

/-- What one concurrent award body contributes for an achievement:
`skipped` — it performed no insert (requirement unmet, or the read check
saw the row), and its invocation moves past this achievement without
returning it; `stalled` — it ran the insert (which commits) and its
callback then threw the `this.db` TypeError, so its promise never
settles and its invocation never returns any list. -/
inductive AwardOutcome where
  | skipped
  | stalled
deriving DecidableEq

/-- One interleaving of two concurrent `checkAchievements` bodies for a
single achievement `a`, with the given requirement outcomes: both
`userHasAchievement` reads happen before either `awardAchievement` write
(the sqlite connection serializes the writes; the second
`INSERT OR REPLACE` replaces the first row without reporting a
conflict).  The components are each invocation's outcome for `a` and the
final storage state. -/
def racedAward (userId : String) (a : Achievement) (meets1 meets2 : Bool)
    (s : DBState) : AwardOutcome × AwardOutcome × DBState :=
  let has1 := userHasAchievement s userId a.id
  let has2 := userHasAchievement s userId a.id
  let s1 := if !has1 && meets1 then awardAchievement s userId a else s
  let s2 := if !has2 && meets2 then awardAchievement s1 userId a else s1
  (if !has1 && meets1 then .stalled else .skipped,
   if !has2 && meets2 then .stalled else .skipped, s2)

theorem awardAchievement_key_mem (s : DBState) (userId : String) (a : Achievement) :
    (userId, a.id) ∈ (awardAchievement s userId a).userAchievements := by
  simp [awardAchievement]

theorem checkGo_done (userId : String) (env : StatsEnv) (ex : ExerciseData) :
    ∀ (l : List Achievement) (s : DBState) (r : List Achievement) (s' : DBState),
      checkGo userId env ex l s = .done r s' → r = [] ∧ s' = s := by
  intro l
  induction l with
  | nil =>
    intro s r s' h
    simp only [checkGo] at h
    injection h with h1 h2
    exact ⟨h1.symm, h2.symm⟩
  | cons a rest ih =>
    intro s r s' h
    simp only [checkGo] at h
    by_cases hc : (!userHasAchievement s userId a.id && meetsRequirement env ex a) = true
    · rw [if_pos hc] at h
      exact CheckOutcome.noConfusion h
    · rw [if_neg hc] at h
      exact ih s r s' h

theorem checkGo_stalled (userId : String) (env : StatsEnv) (ex : ExerciseData) :
    ∀ (l : List Achievement) (s : DBState) (achId : String) (s' : DBState),
      checkGo userId env ex l s = .stalled achId s' →
      (userId, achId) ∉ s.userAchievements ∧ (userId, achId) ∈ s'.userAchievements ∧
        s'.badges = s.badges := by
  intro l
  induction l with
  | nil =>
    intro s achId s' h
    exact CheckOutcome.noConfusion h
  | cons a rest ih =>
    intro s achId s' h
    simp only [checkGo] at h
    by_cases hc : (!userHasAchievement s userId a.id && meetsRequirement env ex a) = true
    · rw [if_pos hc] at h
      injection h with h1 h2
      subst h1
      subst h2
      have hhas : userHasAchievement s userId a.id = false := by
        cases hx : userHasAchievement s userId a.id
        · rfl
        · rw [hx] at hc
          simp at hc
      have hnot : (userId, a.id) ∉ s.userAchievements := by
        simpa [userHasAchievement] using hhas
      exact ⟨hnot, awardAchievement_key_mem s userId a, rfl⟩
    · rw [if_neg hc] at h
      exact ih s achId s' h

/-- Claim C1 (amended): with the underlying stats fixed, a
`checkAchievements` call either completes — returning no achievements at
all and leaving the store untouched (so two sequential completed calls
trivially never return the same id) — or finds an unearned achievement
whose requirement is met, records its `user_achievements` row (no badge
row) and never completes: the badge insert in the award callback
dereferences `this.db`, which is `undefined` because `this` is the
sqlite3 Statement, so a TypeError surfaces as an uncaught exception and
the promise never settles.  A later call against the resulting store
skips the recorded achievement via the `userHasAchievement` read check —
it never stalls on (never re-inserts) that id; nothing "fails
silently". -/
theorem checkAchievements_award_stall_spec (userId : String) (env : StatsEnv)
    (ex : ExerciseData) (s : DBState) :
    (∀ (r : List Achievement) (s' : DBState),
      checkAchievements userId env ex s = .done r s' → r = [] ∧ s' = s) ∧
    (∀ (achId : String) (s' : DBState),
      checkAchievements userId env ex s = .stalled achId s' →
      ((userId, achId) ∉ s.userAchievements ∧ (userId, achId) ∈ s'.userAchievements ∧
        s'.badges = s.badges)) ∧
    (∀ (achId : String) (s' : DBState) (achId2 : String) (s2 : DBState),
      checkAchievements userId env ex s = .stalled achId s' →
      checkAchievements userId env ex s' = .stalled achId2 s2 → achId2 ≠ achId) := by
  refine ⟨fun r s' h => checkGo_done userId env ex defineAchievements s r s' h,
    fun achId s' h => checkGo_stalled userId env ex defineAchievements s achId s' h,
    fun achId s' achId2 s2 h1 h2 heq => ?_⟩
  have k1 := checkGo_stalled userId env ex defineAchievements s achId s' h1
  have k2 := checkGo_stalled userId env ex defineAchievements s' achId2 s2 h2
  rw [heq] at k2
  exact k2.1 k1.2.1

/-- A concrete stats environment: one completed exercise, nothing else. -/
def env1 : StatsEnv :=
  { stats := { totalExercises := 1, avgAccuracy := 1/2, avgTime := 100,
               bestAccuracy := 1/2, fastestTime := 100, categories := [],
               languageCount := 1, currentStreak := 1, consecutiveHighAccuracy := 1,
               nightExercises := 0, morningExercises := 0, hasPerfectScore := false },
    fastCompletions := fun _ => 0 }

def ex1 : ExerciseData := { timeToComplete := 1000 }

/-- Witness for C1 (amended): the stalled case instantiated at the
concrete first call from an empty store, which records `first_steps`. -/
theorem checkAchievements_award_stall_spec_witness :
    ("u1", "first_steps") ∉ (DBState.mk [] []).userAchievements ∧
    ("u1", "first_steps") ∈ (DBState.mk [("u1", "first_steps")] []).userAchievements ∧
    (DBState.mk [("u1", "first_steps")] []).badges = (DBState.mk [] []).badges :=
  (checkAchievements_award_stall_spec "u1" env1 ex1 ⟨[], []⟩).2.1 "first_steps"
    ⟨[("u1", "first_steps")], []⟩ (by decide)

/-- Claim C1 counterexample: the first call — which the claim expects to
return the newly earned achievement and then be followed by a second call
whose insert attempt fails silently — never returns at all: with
`totalExercises = 1` it records `first_steps` and stalls (the badge
insert's `this.db` TypeError surfaces as an uncaught exception; the
promise never settles), so an error does surface; and a subsequent call
against the resulting store completes with no achievements, having made
no insert attempt for the already-earned achievement. -/
theorem checkAchievements_first_call_never_returns :
    checkAchievements "u1" env1 ex1 ⟨[], []⟩ =
      .stalled "first_steps" ⟨[("u1", "first_steps")], []⟩ ∧
    checkAchievements "u1" env1 ex1 ⟨[("u1", "first_steps")], []⟩ =
      .done [] ⟨[("u1", "first_steps")], []⟩ := by
  decide

/-- Claim C2 counterexample: in the reads-then-writes interleaving of two
concurrent award bodies for `first_steps` (requirement met, nothing
earned yet), both invocations run the insert and both stall — neither
"observes the conflict and omits the achievement from its own returned
list": neither ever returns a list, and each surfaces an uncaught
TypeError.  The store ends with the single `user_achievements` row and
zero badge rows; and `awardAchievement` on a state already holding the
row replaces it rather than failing, so it is not an insert-if-absent. -/
theorem racedAward_both_stall :
    (racedAward "u1" firstSteps (meetsRequirement env1 ex1 firstSteps)
        (meetsRequirement env1 ex1 firstSteps) ⟨[], []⟩).1 = .stalled ∧
    (racedAward "u1" firstSteps (meetsRequirement env1 ex1 firstSteps)
        (meetsRequirement env1 ex1 firstSteps) ⟨[], []⟩).2.1 = .stalled ∧
    (racedAward "u1" firstSteps (meetsRequirement env1 ex1 firstSteps)
        (meetsRequirement env1 ex1 firstSteps) ⟨[], []⟩).2.2.userAchievements =
      [("u1", "first_steps")] ∧
    (racedAward "u1" firstSteps (meetsRequirement env1 ex1 firstSteps)
        (meetsRequirement env1 ex1 firstSteps) ⟨[], []⟩).2.2.badges = [] ∧
    (awardAchievement ⟨[("u1", "first_steps")], []⟩ "u1" firstSteps).userAchievements =
      [("u1", "first_steps")] := by
  decide

/-- Claim C2 (amended): awarding is a read-then-write sequence against an
`INSERT OR REPLACE`, not an insert-if-absent: on a state already holding
the `(userId, achievementId)` row the insert succeeds by replacing it,
observing no conflict (and writes no badge row — the badge insert always
throws before running).  Under the reads-then-writes interleaving of two
concurrent invocations both pass the read check and both run the insert,
and both then stall on the `this.db` TypeError: neither invocation
returns the achievement (or any list), no conflict is observed by either,
the badge table is unchanged, and only the uniqueness constraint keeps
the single stored row (the second insert replaces the first). -/
theorem awardAchievement_race_spec (userId : String) (a : Achievement) (s : DBState) :
    ((userId, a.id) ∈ s.userAchievements →
      ((userId, a.id) ∈ (awardAchievement s userId a).userAchievements ∧
       (awardAchievement s userId a).badges = s.badges)) ∧
    ((userId, a.id) ∉ s.userAchievements →
      ((racedAward userId a true true s).1 = .stalled ∧
       (racedAward userId a true true s).2.1 = .stalled ∧
       (racedAward userId a true true s).2.2.userAchievements.count (userId, a.id) = 1 ∧
       (racedAward userId a true true s).2.2.badges = s.badges)) := by
  constructor
  · intro _
    exact ⟨awardAchievement_key_mem s userId a, rfl⟩
  · intro h
    have hhas : userHasAchievement s userId a.id = false := by
      simp [userHasAchievement, h]
    have hcount : ∀ (l : List (String × String)),
        ((userId, a.id) :: l.filter (fun p => decide (p ≠ (userId, a.id)))).count
          (userId, a.id) = 1 := by
      intro l
      rw [List.count_cons_self]
      have h0 : (l.filter (fun p => decide (p ≠ (userId, a.id)))).count (userId, a.id) = 0 :=
        List.count_eq_zero.mpr (by simp [List.mem_filter])
      omega
    refine ⟨by simp [racedAward, hhas], by simp [racedAward, hhas], ?_, ?_⟩
    · simp only [racedAward, hhas, Bool.not_false, Bool.and_self, if_pos]
      exact hcount _
    · simp [racedAward, hhas, awardAchievement]

/-- Witness for C2 (amended): the race from an empty store. -/
theorem awardAchievement_race_spec_witness :
    (racedAward "u2" firstSteps true true ⟨[], []⟩).1 = .stalled ∧
    (racedAward "u2" firstSteps true true ⟨[], []⟩).2.2.badges = ([] : List (String × String)) := by
  have h := (awardAchievement_race_spec "u2" firstSteps ⟨[], []⟩).2 (by simp)
  exact ⟨h.1, h.2.2.2⟩

/-- Claim C4: the accuracy-matching predicate used by submission scoring
(`server/index.js`) and by performance tracking
(`ModelPerformanceTracker.calculateAccuracy`) is the same, and it holds iff
`|foundLine - canonicalLine| ≤ 2` and the types are equal; in particular a
found issue at line 7 of type `security` matches a canonical issue at line 5
of type `security`, and a found issue at line 8 of that type does not. -/
theorem issueMatches_spec (f c : Issue) :
    issueMatches f c = submissionIssueMatches f c ∧
    (issueMatches f c = true ↔ |f.line - c.line| ≤ 2 ∧ f.type = c.type) ∧
    issueMatches ⟨7, "security"⟩ ⟨5, "security"⟩ = true ∧
    issueMatches ⟨8, "security"⟩ ⟨5, "security"⟩ = false ∧
    submissionIssueMatches ⟨7, "security"⟩ ⟨5, "security"⟩ = true ∧
    submissionIssueMatches ⟨8, "security"⟩ ⟨5, "security"⟩ = false := by
  refine ⟨rfl, ?_, by decide, by decide, by decide, by decide⟩
  simp [issueMatches]

/-- Claim C10: `trackAccuracy` can return a value strictly greater than
`1.0`: two found issues at lines 5 and 6 of type `security` each match the
single canonical issue at line 5 of type `security`, so the returned
accuracy is `2 / 1 = 2`; the result is not clamped to `[0, 1]`. -/
theorem trackAccuracy_exceeds_one :
    calculateAccuracy [⟨5, "security"⟩, ⟨6, "security"⟩] [⟨5, "security"⟩] = 2 ∧
    (trackAccuracy [⟨5, "security"⟩, ⟨6, "security"⟩] [⟨5, "security"⟩]
        ⟨[], [], []⟩).1 = some 2 ∧
    (1 : ℚ) < 2 := by
  have h : calculateAccuracy [⟨5, "security"⟩, ⟨6, "security"⟩] [⟨5, "security"⟩] = 2 := by
    norm_num [calculateAccuracy, issueMatches, List.filter_cons, List.any_cons]
  exact ⟨h, by simp [trackAccuracy, h], by norm_num⟩

/-- Claim C7 counterexample: a ring buffer holding exactly 10 samples does
not have "fewer than 10 total samples", yet `getPerformanceReport` reports
its trend as `null` (the `slice(-20, -10)` window is empty). -/
theorem trend_null_at_ten_samples :
    (getPerformanceReport ⟨List.replicate 10 1, [], []⟩).responseTimeImproving = none ∧
    ¬ (List.replicate 10 (1 : ℚ)).length < 10 := by
  exact ⟨rfl, by decide⟩

/-- Claim C7 (amended): for each of the three metrics,
`getPerformanceReport` reports the trend as `null` exactly when the metric's
buffer holds at most 10 samples (fewer than 10, or exactly 10, in which case
the preceding window `slice(-20, -10)` is empty); with 11 or more samples the
trend compares the mean of the most recent 10 samples against the mean of the
up-to-10 preceding samples, in the metric's favorable direction. -/
theorem getPerformanceReport_trend_spec (m : PerfMetrics) :
    ((getPerformanceReport m).responseTimeImproving = none ↔ m.responseTime.length ≤ 10) ∧
    ((getPerformanceReport m).accuracyImproving = none ↔ m.accuracy.length ≤ 10) ∧
    ((getPerformanceReport m).satisfactionImproving = none ↔ m.userSatisfaction.length ≤ 10) ∧
    (∀ (values : List ℚ) (b : Bool), 10 < values.length →
      isImproving values b =
        some (favorable b (avgOf (lastN 10 values)) (avgOf (olderWindow values)))) :=
  ⟨isImproving_none_iff m.responseTime false, isImproving_none_iff m.accuracy true,
   isImproving_none_iff m.userSatisfaction true,
   fun values b h => isImproving_of_gt_ten values b h⟩

/-- Witness for C7 (amended): eleven samples make the trend determined. -/
theorem getPerformanceReport_trend_spec_witness :
    isImproving (List.replicate 11 (1 : ℚ)) true =
      some (favorable true (avgOf (lastN 10 (List.replicate 11 (1 : ℚ))))
        (avgOf (olderWindow (List.replicate 11 (1 : ℚ))))) :=
  (getPerformanceReport_trend_spec ⟨[], [], []⟩).2.2.2 (List.replicate 11 1) true (by decide)

/-- Claim C3: `shouldRetrain()` returns true iff the reported average
latency exceeds 5000 ms, the reported average accuracy is below 70 %, the
reported average satisfaction is below 3.5, or some metric's trend is
explicitly the unfavorable value (`=== false`, i.e. latency not improving,
accuracy not improving, satisfaction not improving); an indeterminate
(`null`) trend never contributes, so with healthy thresholds and all trends
`null` the result is `false`. -/
theorem shouldRetrain_spec (m : PerfMetrics) :
    (shouldRetrain m = true ↔
      (5000 < (getPerformanceReport m).averageResponseTime ∨
       (getPerformanceReport m).averageAccuracy < 70 ∨
       (getPerformanceReport m).averageUserSatisfaction < 7/2 ∨
       (getPerformanceReport m).responseTimeImproving = some false ∨
       (getPerformanceReport m).accuracyImproving = some false ∨
       (getPerformanceReport m).satisfactionImproving = some false)) ∧
    ((getPerformanceReport m).averageResponseTime ≤ 5000 →
     70 ≤ (getPerformanceReport m).averageAccuracy →
     7/2 ≤ (getPerformanceReport m).averageUserSatisfaction →
     (getPerformanceReport m).responseTimeImproving = none →
     (getPerformanceReport m).accuracyImproving = none →
     (getPerformanceReport m).satisfactionImproving = none →
     shouldRetrain m = false) := by
  have hiff : shouldRetrain m = true ↔
      (5000 < (getPerformanceReport m).averageResponseTime ∨
       (getPerformanceReport m).averageAccuracy < 70 ∨
       (getPerformanceReport m).averageUserSatisfaction < 7/2 ∨
       (getPerformanceReport m).responseTimeImproving = some false ∨
       (getPerformanceReport m).accuracyImproving = some false ∨
       (getPerformanceReport m).satisfactionImproving = some false) := by
    simp [shouldRetrain, Bool.or_eq_true, decide_eq_true_iff, or_assoc]
  refine ⟨hiff, fun h1 h2 h3 h4 h5 h6 => ?_⟩
  rw [Bool.eq_false_iff]
  intro hc
  rcases hiff.mp hc with h | h | h | h | h | h
  · omega
  · omega
  · linarith
  · rw [h4] at h
    exact Option.noConfusion h
  · rw [h5] at h
    exact Option.noConfusion h
  · rw [h6] at h
    exact Option.noConfusion h

/-- Witness for C3: a tracker with one healthy sample per buffer (latency
1000 ms, accuracy 1.0, satisfaction 4) has all trends `null` and does not
ask for retraining. -/
theorem shouldRetrain_spec_witness :
    shouldRetrain ⟨[1000], [1], [4]⟩ = false :=
  (shouldRetrain_spec ⟨[1000], [1], [4]⟩).2
    (by norm_num [getPerformanceReport, jsRound, avgOf, Int.floor_eq_iff])
    (by norm_num [getPerformanceReport, jsRound, avgOf, Int.floor_eq_iff])
    (by norm_num [getPerformanceReport, jsRound, avgOf, Int.floor_eq_iff])
    rfl rfl rfl

/-- Claim C8 counterexample: `trackUserSatisfaction` has no `return`
statement, so it returns `undefined` (`none`), not the rating. -/
theorem trackUserSatisfaction_returns_nothing :
    (trackUserSatisfaction 5 "exercise" ⟨[], [], []⟩).1 = none ∧
    (trackUserSatisfaction 5 "exercise" ⟨[], [], []⟩).1 ≠ some 5 := by
  exact ⟨rfl, by simp [trackUserSatisfaction]⟩

/-- Claim C8 (amended): each tracking call appends exactly one sample to its
own bounded buffer (capacity 100, oldest evicted) and leaves the other two
buffers unchanged; `trackResponseTime` returns the elapsed time and
`trackAccuracy` the computed accuracy, but `trackUserSatisfaction` returns
no value (`undefined`). -/
theorem track_calls_append_one_sample (startTime endTime rating : ℚ)
    (found correct : List Issue) (cat : String) (m : PerfMetrics) :
    (trackResponseTime startTime endTime m).1 = some (endTime - startTime) ∧
    (trackResponseTime startTime endTime m).2.responseTime =
      pushCapped m.responseTime (endTime - startTime) ∧
    (trackResponseTime startTime endTime m).2.accuracy = m.accuracy ∧
    (trackResponseTime startTime endTime m).2.userSatisfaction = m.userSatisfaction ∧
    (trackAccuracy found correct m).1 = some (calculateAccuracy found correct) ∧
    (trackAccuracy found correct m).2.accuracy =
      pushCapped m.accuracy (calculateAccuracy found correct) ∧
    (trackAccuracy found correct m).2.responseTime = m.responseTime ∧
    (trackAccuracy found correct m).2.userSatisfaction = m.userSatisfaction ∧
    (trackUserSatisfaction rating cat m).1 = none ∧
    (trackUserSatisfaction rating cat m).2.userSatisfaction =
      pushCapped m.userSatisfaction rating ∧
    (trackUserSatisfaction rating cat m).2.responseTime = m.responseTime ∧
    (trackUserSatisfaction rating cat m).2.accuracy = m.accuracy ∧
    (∀ (xs : List ℚ) (v : ℚ), (pushCapped xs v).length = min (xs.length + 1) 100) := by
  refine ⟨rfl, rfl, rfl, rfl, rfl, rfl, rfl, rfl, rfl, rfl, rfl, rfl, fun xs v => ?_⟩
  rw [pushCapped]
  by_cases h : 100 < (xs ++ [v]).length
  · rw [if_pos h]
    simp only [lastN, List.length_drop, List.length_append, List.length_singleton] at h ⊢
    omega
  · rw [if_neg h]
    simp only [List.length_append, List.length_singleton] at h ⊢
    omega

/-- The single row of the `basic` aggregate query of `getUserStats`
(`COUNT`, `AVG`, `MAX`, `MIN` over the user's `exercise_analytics` rows).
On an empty row set SQL returns `COUNT = 0` and `NULL` for the other
aggregates, hence the `Option` columns. -/
structure BasicRow where
  total_exercises : ℕ
  avg_accuracy : Option ℚ
  avg_time : Option ℚ
  best_accuracy : Option ℚ
  fastest_time : Option ℚ
deriving DecidableEq

/-- A row of the `categories` `GROUP BY` query (each existing group has at
least one row, so its average is never `NULL`). -/
structure CatRow where
  category : String
  count : ℕ
  avg_accuracy : ℚ
deriving DecidableEq

/-- The single row of the `languages` `COUNT(DISTINCT ...)` query. -/
structure LangRow where
  language_count : ℕ
deriving DecidableEq

/-- A row of the `recent` query (last 30 days, grouped by day, most recent
day first): `DATE(created_at)` encoded as a day number, and
`strftime('%H', created_at)` parsed by `parseInt`. -/
structure RecentRow where
  date : ℤ
  daily_count : ℕ
  hour : ℕ
deriving DecidableEq

/-- A row of the `consecutive` query
(`ORDER BY created_at DESC LIMIT 10`): the accuracy score of one of the 10
most recent events, most recent first. -/
structure ConsRow where
  accuracy_score : ℚ
deriving DecidableEq

/-- The five query results `processUserStats` receives. -/
structure RawStats where
  basic : List BasicRow
  categories : List CatRow
  languages : List LangRow
  recent : List RecentRow
  consecutive : List ConsRow

/-- JS `x || d` on a possibly-`null`/`undefined` number: `undefined`,
`null` and `0` are falsy. -/
def jsOrQ : Option ℚ → ℚ → ℚ
  | none, d => d
  | some v, d => if v = 0 then d else v

/-- The streak loop of `processUserStats`: walk the day rows, most recent
first, incrementing while each row's date equals the moving cursor
(starting at today), and `break` at the first mismatch. -/
def streakLoop : List RecentRow → ℤ → ℕ → ℕ
  | [], _, streak => streak
  | day :: rest, checkDate, streak =>
    if day.date = checkDate then streakLoop rest (checkDate - 1) (streak + 1)
    else streak

/-- The consecutive-high-accuracy loop of `processUserStats`: count rows
with `accuracy_score >= 0.9`, `break` at the first below. -/
def consecLoop : List ConsRow → ℕ
  | [] => 0
  | e :: rest => if (9 : ℚ)/10 ≤ e.accuracy_score then consecLoop rest + 1 else 0

/-- `AchievementSystem.processUserStats`. -/
def processUserStats (today : ℤ) (raw : RawStats) : UserStats :=
  { totalExercises := (match raw.basic.head? with | some b => b.total_exercises | none => 0)
    avgAccuracy := jsOrQ (raw.basic.head?.bind (fun b => b.avg_accuracy)) 0
    avgTime := jsOrQ (raw.basic.head?.bind (fun b => b.avg_time)) 0
    bestAccuracy := jsOrQ (raw.basic.head?.bind (fun b => b.best_accuracy)) 0
    fastestTime := jsOrQ (raw.basic.head?.bind (fun b => b.fastest_time)) 999999
    categories := raw.categories.map (fun c => (c.category, ⟨c.count, c.avg_accuracy⟩))
    languageCount := (match raw.languages.head? with | some l => l.language_count | none => 0)
    currentStreak := streakLoop raw.recent today 0
    consecutiveHighAccuracy := consecLoop raw.consecutive
    nightExercises :=
      (raw.recent.filter (fun r => decide (22 ≤ r.hour) || decide (r.hour ≤ 6))).length
    morningExercises :=
      (raw.recent.filter (fun r => decide (5 ≤ r.hour) && decide (r.hour ≤ 9))).length
    hasPerfectScore := raw.basic.head?.bind (fun b => b.best_accuracy) == some 1 }

/-- The raw query results for a user with zero completion events: the
aggregate query returns one row with `COUNT(*) = 0` and `NULL` aggregates,
the `COUNT(DISTINCT language)` query returns one row with count `0`, and
the grouped queries return no rows. -/
def zeroEventRawStats : RawStats :=
  { basic := [{ total_exercises := 0, avg_accuracy := none, avg_time := none,
                best_accuracy := none, fastest_time := none }],
    categories := [], languages := [{ language_count := 0 }],
    recent := [], consecutive := [] }

/-- Claim C5 counterexample: with zero completion events the snapshot's
`fastestTime` facet is the `MIN(time_to_complete) || 999999` default
`999999`, not `0`. -/
theorem zero_events_fastestTime :
    (processUserStats 0 zeroEventRawStats).fastestTime = 999999 ∧
    (999999 : ℚ) ≠ 0 := by
  exact ⟨rfl, by norm_num⟩

/-- Claim C5 (amended): for a user with zero completion events the
aggregation is total (never an error) and yields the snapshot with every
facet zero / false — except `fastestTime`, which defaults to `999999`. -/
theorem processUserStats_zero_events (today : ℤ) :
    processUserStats today zeroEventRawStats =
      { totalExercises := 0, avgAccuracy := 0, avgTime := 0, bestAccuracy := 0,
        fastestTime := 999999, categories := [], languageCount := 0,
        currentStreak := 0, consecutiveHighAccuracy := 0, nightExercises := 0,
        morningExercises := 0, hasPerfectScore := false } :=
  rfl

/-- The consecutive-high-accuracy facet as a function of the user's full
event list in reverse chronological order: the SQL query keeps the 10 most
recent rows (`LIMIT 10`), then `processUserStats` runs the counting loop. -/
def consecutiveHighAccuracyOf (eventsDesc : List ConsRow) : ℕ :=
  consecLoop (eventsDesc.take 10)

theorem consecLoop_eq_takeWhile (l : List ConsRow) :
    consecLoop l =
      (l.takeWhile (fun e => decide ((9 : ℚ)/10 ≤ e.accuracy_score))).length := by
  induction l with
  | nil => rfl
  | cons e rest ih =>
    by_cases h : (9 : ℚ)/10 ≤ e.accuracy_score
    · simp [consecLoop, h, List.takeWhile_cons, ih]
    · simp [consecLoop, h, List.takeWhile_cons]

/-- Claim C6: the consecutive-high-accuracy facet scans only the 10 most
recent events (no date filter), in reverse chronological order, counting
the initial run of events with accuracy ≥ 0.9 and stopping at the first
event below 0.9; in particular it is 0 whenever the most recent event has
accuracy < 0.9, whatever the earlier events are. -/
theorem consecutiveHighAccuracy_spec (today : ℤ) (raw : RawStats) (es : List ConsRow) :
    consecutiveHighAccuracyOf es =
      ((es.take 10).takeWhile (fun e => decide ((9 : ℚ)/10 ≤ e.accuracy_score))).length ∧
    consecutiveHighAccuracyOf es = consecutiveHighAccuracyOf (es.take 10) ∧
    (processUserStats today { raw with consecutive := es.take 10 }).consecutiveHighAccuracy =
      consecutiveHighAccuracyOf es ∧
    (∀ e, es.head? = some e → e.accuracy_score < 9/10 →
      consecutiveHighAccuracyOf es = 0) := by
  refine ⟨consecLoop_eq_takeWhile _, ?_, ?_, ?_⟩
  · simp [consecutiveHighAccuracyOf, List.take_take]
  · simp [processUserStats, consecutiveHighAccuracyOf, List.take_take]
  · intro e he hlt
    cases es with
    | nil => cases he
    | cons e0 t =>
      obtain rfl : e0 = e := by simpa using he
      rw [consecutiveHighAccuracyOf, show (10 : ℕ) = 9 + 1 from rfl,
        List.take_succ_cons]
      simp [consecLoop, not_le.mpr hlt]

/-- Witness for C6: most recent event at accuracy 0.88 gives a zero count
despite perfect earlier events. -/
theorem consecutiveHighAccuracy_spec_witness :
    consecutiveHighAccuracyOf [⟨22/25⟩, ⟨1⟩, ⟨1⟩] = 0 :=
  (consecutiveHighAccuracy_spec 0 zeroEventRawStats [⟨22/25⟩, ⟨1⟩, ⟨1⟩]).2.2.2
    ⟨22/25⟩ rfl (by norm_num)

/-- A row of the `progressTrend` query of `getUserLearningInsights`
(last 14 days grouped by day, most recent day first); only
`daily_accuracy` is read by the trend analysis. -/
structure TrendRow where
  daily_accuracy : ℚ
deriving DecidableEq

/-- The `trend` tag returned by `AnalyticsService.analyzeProgressTrend`
(the accompanying message strings are presentation only). -/
inductive TrendKind
  | insufficient_data
  | new_user
  | improving
  | declining
  | stable
deriving DecidableEq

/-- Average daily accuracy over a window of day rows
(`reduce((sum, day) => sum + day.daily_accuracy, 0) / length`; the code
only divides on nonempty windows, where the `0` guard is irrelevant). -/
def avgDaily (rows : List TrendRow) : ℚ :=
  if rows = [] then 0
  else (rows.map (fun r => r.daily_accuracy)).sum / (rows.length : ℚ)

/-- `recentAvg - olderAvg` over the `slice(0, 7)` and `slice(7, 14)`
windows. -/
def trendDelta (trendData : List TrendRow) : ℚ :=
  avgDaily (trendData.take 7) - avgDaily ((trendData.drop 7).take 7)

/-- `AnalyticsService.analyzeProgressTrend`. -/
def analyzeProgressTrend (trendData : List TrendRow) : TrendKind :=
  if trendData.length < 3 then .insufficient_data
  else
    if (trendData.drop 7).take 7 = [] then .new_user
    else
      if 1/10 < trendDelta trendData then .improving
      else if trendDelta trendData < -(1/10) then .declining
      else .stable

/-- Claim C9: the learning-insight trend is `insufficient_data` for fewer
than 3 daily data points; `new_user` when there is data but the prior
window (`slice(7, 14)`) is empty; otherwise `improving` when the
recent-minus-prior average accuracy difference exceeds 0.10, `declining`
when it is below −0.10, and `stable` otherwise. -/
theorem analyzeProgressTrend_spec (td : List TrendRow) :
    (td.length < 3 → analyzeProgressTrend td = .insufficient_data) ∧
    (3 ≤ td.length → td.drop 7 = [] → analyzeProgressTrend td = .new_user) ∧
    (3 ≤ td.length → td.drop 7 ≠ [] →
      ((1/10 < trendDelta td → analyzeProgressTrend td = .improving) ∧
       (trendDelta td < -(1/10) → analyzeProgressTrend td = .declining) ∧
       (-(1/10) ≤ trendDelta td → trendDelta td ≤ 1/10 →
         analyzeProgressTrend td = .stable))) := by
  refine ⟨fun h => by rw [analyzeProgressTrend, if_pos h], fun h3 hd => ?_, fun h3 hd => ?_⟩
  · have hlt : ¬ td.length < 3 := by omega
    rw [analyzeProgressTrend, if_neg hlt, if_pos (by rw [hd]; rfl)]
  · have hlt : ¬ td.length < 3 := by omega
    have hne : ¬ (td.drop 7).take 7 = [] := by
      intro he
      rcases List.take_eq_nil_iff.mp he with h7 | h0
      · exact absurd h7 (by norm_num)
      · exact hd h0
    refine ⟨fun himp => ?_, fun hdec => ?_, fun hge hle => ?_⟩
    · rw [analyzeProgressTrend, if_neg hlt, if_neg hne, if_pos himp]
    · have hnot : ¬ (1/10 : ℚ) < trendDelta td := by linarith
      rw [analyzeProgressTrend, if_neg hlt, if_neg hne, if_neg hnot, if_pos hdec]
    · have hnot1 : ¬ (1/10 : ℚ) < trendDelta td := by linarith
      have hnot2 : ¬ trendDelta td < -(1/10 : ℚ) := by linarith
      rw [analyzeProgressTrend, if_neg hlt, if_neg hne, if_neg hnot1, if_neg hnot2]

/-- A 14-day series: recent window all 0.82, prior window all 0.68. -/
def tdImproving : List TrendRow :=
  [⟨41/50⟩, ⟨41/50⟩, ⟨41/50⟩, ⟨41/50⟩, ⟨41/50⟩, ⟨41/50⟩, ⟨41/50⟩,
   ⟨17/25⟩, ⟨17/25⟩, ⟨17/25⟩, ⟨17/25⟩, ⟨17/25⟩, ⟨17/25⟩, ⟨17/25⟩]

/-- A 14-day series: recent window all 0.70, prior window all 0.75. -/
def tdStable : List TrendRow :=
  [⟨7/10⟩, ⟨7/10⟩, ⟨7/10⟩, ⟨7/10⟩, ⟨7/10⟩, ⟨7/10⟩, ⟨7/10⟩,
   ⟨3/4⟩, ⟨3/4⟩, ⟨3/4⟩, ⟨3/4⟩, ⟨3/4⟩, ⟨3/4⟩, ⟨3/4⟩]

/-- Witness for C9: recent 0.82 vs prior 0.68 is `improving` (Δ = 0.14),
recent 0.70 vs prior 0.75 is `stable` (Δ = −0.05), and two data points are
`insufficient_data`. -/
theorem analyzeProgressTrend_spec_witness :
    analyzeProgressTrend tdImproving = .improving ∧
    analyzeProgressTrend tdStable = .stable ∧
    analyzeProgressTrend [⟨1⟩, ⟨1⟩] = .insufficient_data := by
  have havg : ∀ q : ℚ, avgDaily [⟨q⟩, ⟨q⟩, ⟨q⟩, ⟨q⟩, ⟨q⟩, ⟨q⟩, ⟨q⟩] = q := by
    intro q
    rw [avgDaily, if_neg (by simp)]
    simp
    ring
  have h1 : trendDelta tdImproving = 7/50 := by
    rw [trendDelta, show tdImproving.take 7 =
        [⟨41/50⟩, ⟨41/50⟩, ⟨41/50⟩, ⟨41/50⟩, ⟨41/50⟩, ⟨41/50⟩, ⟨41/50⟩] from rfl,
      show (tdImproving.drop 7).take 7 =
        [⟨17/25⟩, ⟨17/25⟩, ⟨17/25⟩, ⟨17/25⟩, ⟨17/25⟩, ⟨17/25⟩, ⟨17/25⟩] from rfl,
      havg, havg]
    norm_num
  have h2 : trendDelta tdStable = -(1/20) := by
    rw [trendDelta, show tdStable.take 7 =
        [⟨7/10⟩, ⟨7/10⟩, ⟨7/10⟩, ⟨7/10⟩, ⟨7/10⟩, ⟨7/10⟩, ⟨7/10⟩] from rfl,
      show (tdStable.drop 7).take 7 =
        [⟨3/4⟩, ⟨3/4⟩, ⟨3/4⟩, ⟨3/4⟩, ⟨3/4⟩, ⟨3/4⟩, ⟨3/4⟩] from rfl,
      havg, havg]
    norm_num
  refine ⟨((analyzeProgressTrend_spec tdImproving).2.2 (by decide) (by decide)).1 ?_,
    ((analyzeProgressTrend_spec tdStable).2.2 (by decide) (by decide)).2.2 ?_ ?_,
    (analyzeProgressTrend_spec [⟨1⟩, ⟨1⟩]).1 (by decide)⟩
  · rw [h1]; norm_num
  · rw [h2]; norm_num
  · rw [h2]; norm_num
